import Mathlib

/-!
Verification of the cross-chain message lifecycle core (CrossChainMonitor,
SuperchainSwapService, DexRouters, execution provider interface).

Machine integers of the source (256-bit words, 160-bit addresses, 64-bit
keccak lanes) are modelled as `Nat` with explicit `% 2 ^ w` where overflow
matters.  Byte strings (hex data, hashes, calldata) are `List Nat` with each
element a byte value.  Hex-string quantities that the source only ever
compares for equality (topics, hashes, addresses) are modelled by their
numeric value.
-/

namespace SuperPorto

/-! ## Byte and word helpers -/

/-- Big-endian byte serialisation of `n`, `width` bytes (the low
`8 * width` bits of `n`). -/
def beBytes (width n : Nat) : List Nat :=
  (List.range width).map (fun i => n >>> (8 * (width - 1 - i)) % 256)

/-- Numeric value of a big-endian byte string. -/
def bytesToNatBE (bs : List Nat) : Nat :=
  bs.foldl (fun acc b => acc * 256 + b) 0

/-- A 32-byte ABI word. -/
def abiWord (n : Nat) : List Nat := beBytes 32 n

/-- Zero-pad a byte string on the right to a multiple of 32 bytes. -/
def padRight32 (b : List Nat) : List Nat :=
  b ++ List.replicate ((32 - b.length % 32) % 32) 0

/-! ## Keccak-256 (the hash used by `keccak256` in the source: original
Keccak with `0x01` domain padding, rate 136 bytes, 24-round f[1600]). -/

/-- Left rotation of a 64-bit lane. -/
def rotl64 (x n : Nat) : Nat :=
  ((x <<< (n % 64)) ||| (x >>> (64 - n % 64))) % 2 ^ 64

/-- Rho step rotation offsets as a 5x5 grid: `rhoGrid[x][y]` is the
offset of the lane at column `x`, row `y`. -/
def rhoGrid : List (List Nat) :=
  [[0, 36, 3, 41, 18],
   [1, 44, 10, 45, 2],
   [62, 6, 43, 15, 61],
   [28, 55, 25, 21, 56],
   [27, 20, 39, 8, 14]]

/-- Rho step rotation offsets, lanes ordered `x + 5 * y`. -/
def rhoOffsets : List Nat :=
  (List.range 25).map (fun i => (rhoGrid.getD (i % 5) []).getD (i / 5) 0)

/-- Inverse of the pi lane permutation: entry `j` is the source lane that
lands in lane `j` after pi. -/
def invPi : List Nat :=
  [0, 6, 12, 18, 24, 3, 9, 10, 16, 22, 1, 7, 13, 19, 20,
   4, 5, 11, 17, 23, 2, 8, 14, 15, 21]

/-- Keccak-f[1600] round constants (decimal values of the 24 iota
constants). -/
def keccakRoundConstants : List Nat :=
  [1, 32898, 9223372036854808714,
   9223372039002292224, 32907, 2147483649,
   9223372039002292353, 9223372036854808585, 138,
   136, 2147516425, 2147483658,
   2147516555, 9223372036854775947, 9223372036854808713,
   9223372036854808579, 9223372036854808578, 9223372036854775936,
   32778, 9223372039002259466, 9223372039002292353,
   9223372036854808704, 2147483649, 9223372039002292232]

def keccakTheta (s : List Nat) : List Nat :=
  let c := (List.range 5).map (fun x =>
    s.getD x 0 ^^^ s.getD (x + 5) 0 ^^^ s.getD (x + 10) 0 ^^^
      s.getD (x + 15) 0 ^^^ s.getD (x + 20) 0)
  let d := (List.range 5).map (fun x =>
    c.getD ((x + 4) % 5) 0 ^^^ rotl64 (c.getD ((x + 1) % 5) 0) 1)
  (List.range 25).map (fun i => s.getD i 0 ^^^ d.getD (i % 5) 0)

def keccakRhoPi (s : List Nat) : List Nat :=
  (List.range 25).map (fun j =>
    let i := invPi.getD j 0
    rotl64 (s.getD i 0) (rhoOffsets.getD i 0))

def keccakChi (s : List Nat) : List Nat :=
  (List.range 25).map (fun i =>
    let x := i % 5
    let row := i - x
    s.getD i 0 ^^^ ((s.getD ((x + 1) % 5 + row) 0 ^^^ (2 ^ 64 - 1)) &&&
      s.getD ((x + 2) % 5 + row) 0))

def keccakIota (s : List Nat) (rc : Nat) : List Nat :=
  match s with
  | [] => []
  | a :: rest => (a ^^^ rc) :: rest

def keccakRound (s : List Nat) (rc : Nat) : List Nat :=
  keccakIota (keccakChi (keccakRhoPi (keccakTheta s))) rc

def keccakF (s : List Nat) : List Nat :=
  keccakRoundConstants.foldl keccakRound s

/-- Multi-rate padding with the original Keccak `0x01` domain byte
(rate 136 bytes). -/
def keccakPad (msg : List Nat) : List Nat :=
  let padLen := 136 - msg.length % 136
  if padLen = 1 then msg ++ [0x81]
  else msg ++ [0x01] ++ List.replicate (padLen - 2) 0 ++ [0x80]

/-- Split a byte string into rate-sized blocks (structural recursion on a
fuel bound; `l.length` fuel always suffices since each block consumes at
least one byte). -/
def toBlocksGo : Nat → List Nat → List (List Nat)
  | 0, _ => []
  | _, [] => []
  | fuel + 1, l => l.take 136 :: toBlocksGo fuel (l.drop 136)

/-- Split a byte string into rate-sized blocks. -/
def toBlocks (l : List Nat) : List (List Nat) :=
  toBlocksGo l.length l

/-- A 64-bit lane from up to eight little-endian bytes. -/
def laneOfBytes (bs : List Nat) : Nat :=
  bs.foldr (fun b acc => acc * 256 + b) 0

/-- XOR one 136-byte block into the first 17 lanes of the state. -/
def absorbBlock (s block : List Nat) : List Nat :=
  (List.range 25).map (fun j =>
    s.getD j 0 ^^^ laneOfBytes ((block.drop (8 * j)).take 8))

def keccakAbsorb (s : List Nat) (blocks : List (List Nat)) : List Nat :=
  blocks.foldl (fun st b => keccakF (absorbBlock st b)) s

/-- First `n` squeezed bytes of a state (little-endian within each lane). -/
def squeezeBytes (s : List Nat) (n : Nat) : List Nat :=
  (List.range n).map (fun i => s.getD (i / 8) 0 >>> (8 * (i % 8)) % 256)

/-- keccak256 of a byte string, as 32 bytes. -/
def keccak256Bytes (msg : List Nat) : List Nat :=
  squeezeBytes (keccakAbsorb (List.replicate 25 0) (toBlocks (keccakPad msg))) 32

/-- keccak256 of a byte string, as the numeric value of the 32-byte hash
(the model of a `0x…` 32-byte hex hash string). -/
def keccak256 (msg : List Nat) : Nat :=
  bytesToNatBE (keccak256Bytes msg)

/-- ASCII bytes of a string. -/
def asciiBytes (s : String) : List Nat :=
  s.data.map Char.toNat

/-! ## ABI encoding (`encodeAbiParameters` / `encodeFunctionData` of viem,
restricted to the parameter shapes the source passes: 32-byte static words
(`uint256` / `address` / `bytes32` / `uint24` / `uint160` / `bool`), static
tuples of words, dynamic `bytes`, and dynamic arrays of static tuples). -/

inductive AbiValue where
  /-- A static 32-byte word value (uintN, address, bytes32, bool). -/
  | word (n : Nat)
  /-- Dynamic `bytes`. -/
  | dynBytes (b : List Nat)
  /-- A static tuple whose components are all single words. -/
  | statTuple (ns : List Nat)
  /-- A dynamic array of static tuples of words. -/
  | tupleArray (rows : List (List Nat))
deriving DecidableEq

/-- Size of a parameter's slot in the head section. -/
def headSize : AbiValue → Nat
  | .word _ => 32
  | .dynBytes _ => 32
  | .statTuple ns => 32 * ns.length
  | .tupleArray _ => 32

/-- Tail bytes of a dynamic parameter (empty for static ones). -/
def tailBytes : AbiValue → List Nat
  | .word _ => []
  | .statTuple _ => []
  | .dynBytes b => abiWord b.length ++ padRight32 b
  | .tupleArray rows => abiWord rows.length ++ (rows.map (fun r => (r.map abiWord).flatten)).flatten

/-- Standard head/tail ABI encoding of a parameter list. -/
def encodeAbiParameters (vs : List AbiValue) : List Nat :=
  let headsLen := vs.foldl (fun a v => a + headSize v) 0
  let step := fun (acc : List Nat × List Nat) (v : AbiValue) =>
    match v with
    | AbiValue.word n => (acc.1 ++ abiWord n, acc.2)
    | AbiValue.statTuple ns => (acc.1 ++ (ns.map abiWord).flatten, acc.2)
    | AbiValue.dynBytes b =>
        (acc.1 ++ abiWord (headsLen + acc.2.length), acc.2 ++ tailBytes (AbiValue.dynBytes b))
    | AbiValue.tupleArray rows =>
        (acc.1 ++ abiWord (headsLen + acc.2.length), acc.2 ++ tailBytes (AbiValue.tupleArray rows))
  let r := vs.foldl step ([], [])
  r.1 ++ r.2

/-- Model of `encodeFunctionData`: the 4-byte selector (first four bytes of the
keccak256 of the function signature) followed by the encoded arguments. -/
def encodeFunctionData (signature : String) (args : List AbiValue) : List Nat :=
  (keccak256Bytes (asciiBytes signature)).take 4 ++ encodeAbiParameters args

/-! ## Domain types of `CrossChainMonitor.ts` -/

/-- Anchors a message to its emitting log entry (`MessageIdentifier`). -/
structure MessageIdentifier where
  origin : Nat
  blockNumber : Nat
  logIndex : Nat
  timestamp : Nat
  chainId : Nat
deriving DecidableEq

/-- A decoded `SentMessage` event. -/
structure SentMessage where
  destination : Nat
  target : Nat
  nonce : Nat
  sender : Nat
  message : List Nat
deriving DecidableEq

/-- Lifecycle states of a cross-chain message. -/
inductive MsgState where
  | sent
  | relayed
  | failed
  | expired
deriving DecidableEq, BEq

/-- Model of `MessageStatus` as returned by the monitor. -/
structure MessageStatus where
  messageHash : Nat
  identifier : MessageIdentifier
  status : MsgState
  txHash : Nat
  relayTxHash : Option Nat
  error : Option String
  timestamp : Nat
deriving DecidableEq

/-- One event log entry as seen through viem (`Log`). -/
structure LogEntry where
  address : Nat
  topics : List Nat
  data : List Nat
  logIndex : Option Nat
  transactionHash : Nat
deriving DecidableEq

/-- A transaction receipt: its logs and the block it landed in. -/
structure Receipt where
  logs : List LogEntry
  blockNumber : Nat
deriving DecidableEq

/-- Read-only view of one chain as provided by a `PublicClient`:
receipt lookup by transaction hash, block timestamps, and the logs
returned by `getLogs` for a contract address over the full range. -/
structure ChainData where
  receipts : Nat → Option Receipt
  blockTimestamp : Nat → Nat
  logsAt : Nat → List LogEntry

/-- The collection of chain states the monitor's clients observe. -/
def Env : Type := Nat → ChainData

/-- Per-chain entry of `CrossChainMonitorConfig.chains` (the `chain` and
`rpcUrl` members only feed client construction and are absorbed into
`Env`). -/
structure ChainConfig where
  chainId : Nat
  messengerAddress : Nat
  inboxAddress : Nat
deriving DecidableEq

/-- Model of `CrossChainMonitorConfig`. -/
structure CrossChainMonitorConfig where
  chains : List ChainConfig
  pollingInterval : Option Nat
  messageExpiry : Option Nat

/-- The monitor's configuration-derived fields. -/
structure Monitor where
  chains : List ChainConfig
  pollingInterval : Nat
  messageExpiry : Nat

/-- JavaScript `a || d` on an optional number: `undefined` and `0` both
fall back to the default. -/
def jsOr (v : Option Nat) (d : Nat) : Nat :=
  match v with
  | none => d
  | some n => if n = 0 then d else n

/-- The `CrossChainMonitor` constructor: defaults of 5000 ms polling and
7-day message expiry, and one client per configured chain. -/
def mkMonitor (config : CrossChainMonitorConfig) : Monitor :=
  { chains := config.chains
    pollingInterval := jsOr config.pollingInterval 5000
    messageExpiry := jsOr config.messageExpiry (7 * 24 * 60 * 60) }

/-- Model of `this.clients.get(chainId)` succeeds exactly for configured chains. -/
def hasClient (m : Monitor) (chainId : Nat) : Bool :=
  m.chains.any (fun c => c.chainId == chainId)

/-- keccak256 of `SentMessage(uint256,address,uint256,address,bytes)`
(the `SENT_MESSAGE_SIGNATURE` constant of the source). -/
def SENT_MESSAGE_SIGNATURE : Nat :=
  0x382409ac69001e11931a28435afef442cbfd20d9891907e8fa373ba7d351f320

/-- keccak256 of `RelayedMessage(bytes32)`. -/
def RELAYED_MESSAGE_SIGNATURE : Nat :=
  0x4641df4a962071e12719d8c8c8e5ac7fc4d97b927346a3d7a335b1f7517e133c

/-- keccak256 of `FailedRelayedMessage(bytes32)`. -/
def FAILED_RELAYED_MESSAGE_SIGNATURE : Nat :=
  0x99d0e048484baa1b1540b1367cb128acd7ab2946d1ed91ec10e3c85e4bf51b8f

/-- Model of `calculateMessageHash`, split into the inner hash: keccak256 of the ABI
encoding of (signature constant, destination, target, nonce, sender,
payload). -/
def innerMessageHash (sentMessage : SentMessage) : Nat :=
  keccak256 (encodeAbiParameters
    [AbiValue.word SENT_MESSAGE_SIGNATURE,
     AbiValue.word sentMessage.destination,
     AbiValue.word sentMessage.target,
     AbiValue.word sentMessage.nonce,
     AbiValue.word sentMessage.sender,
     AbiValue.dynBytes sentMessage.message])

/-- Model of `calculateMessageHash` as 32 bytes: keccak256 of the ABI encoding of
(the identifier tuple, the inner hash). -/
def calculateMessageHashBytes (identifier : MessageIdentifier) (sentMessage : SentMessage) : List Nat :=
  keccak256Bytes (encodeAbiParameters
    [AbiValue.statTuple
      [identifier.origin, identifier.blockNumber, identifier.logIndex,
       identifier.timestamp, identifier.chainId],
     AbiValue.word (innerMessageHash sentMessage)])

/-- Model of `calculateMessageHash` as the numeric hash value. -/
def calculateMessageHash (identifier : MessageIdentifier) (sentMessage : SentMessage) : Nat :=
  bytesToNatBE (calculateMessageHashBytes identifier sentMessage)

/-- Model of `decodeSentMessage`: topics carry (signature, destination, target,
nonce); the data field carries the padded sender followed by the
offset/length-prefixed payload.  The source works on hex-character offsets
(two per byte); this model works on bytes. -/
def decodeSentMessage (log : LogEntry) : SentMessage :=
  let destination := log.topics.getD 1 0
  let target := log.topics.getD 2 0 % 2 ^ 160
  let nonce := log.topics.getD 3 0
  let sender := bytesToNatBE ((log.data.take 32).drop 12)
  let messageOffset := bytesToNatBE ((log.data.drop 32).take 32)
  let messageLength := bytesToNatBE ((log.data.drop messageOffset).take 32)
  let message := (log.data.drop (messageOffset + 32)).take messageLength
  { destination, target, nonce, sender, message }

/-- Model of `createMessageIdentifier`: origin is the log's emitting address, the
timestamp is read from the block, and a missing log index falls back
to zero. -/
def createMessageIdentifier (env : Env) (chainId : Nat) (log : LogEntry) (blockNumber : Nat) :
    MessageIdentifier :=
  { origin := log.address
    blockNumber := blockNumber
    logIndex := log.logIndex.getD 0
    timestamp := (env chainId).blockTimestamp blockNumber
    chainId := chainId }

/-! ## Monitor operations -/

/-- Errors thrown by `monitorMessage` (`throw new Error(...)` in the
source, plus the receipt-lookup failure of the RPC client). -/
inductive MonitorError where
  /-- Model of `No client configured for chain …`. -/
  | noClient (chainId : Nat)
  /-- Model of `getTransactionReceipt` rejects: no receipt for that hash. -/
  | receiptNotFound (txHash : Nat)
  /-- Model of `No SentMessage events found in transaction` (the NotFoundError). -/
  | noSentMessage
deriving DecidableEq

/-- Predicate of the `receipt.logs.filter` locating SentMessage events. -/
def sentLogPred (l : LogEntry) : Bool :=
  l.topics.get? 0 == some SENT_MESSAGE_SIGNATURE

/-- Predicate of the `relayedLogs.find` locating a RelayedMessage event
carrying the message hash as its first indexed topic. -/
def relayedLogPred (messageHash : Nat) (l : LogEntry) : Bool :=
  l.topics.get? 0 == some RELAYED_MESSAGE_SIGNATURE && l.topics.get? 1 == some messageHash

/-- Predicate of the `relayedLogs.find` locating a FailedRelayedMessage
event carrying the message hash as its first indexed topic. -/
def failedLogPred (messageHash : Nat) (l : LogEntry) : Bool :=
  l.topics.get? 0 == some FAILED_RELAYED_MESSAGE_SIGNATURE && l.topics.get? 1 == some messageHash

/-- Result record of `checkRelayStatus`. -/
structure RelayCheck where
  isRelayed : Bool
  status : MsgState
  txHash : Option Nat
  error : Option String
deriving DecidableEq

/-- Model of `checkRelayStatus`: scan the destination messenger's logs for a
RelayedMessage with the message hash, then for a FailedRelayedMessage;
neither found leaves the message unresolved. -/
def checkRelayStatus (m : Monitor) (env : Env) (destinationChainId messageHash : Nat) :
    RelayCheck :=
  if !(hasClient m destinationChainId) then
    { isRelayed := false, status := .failed, txHash := none,
      error := some "No client for destination chain" }
  else
    match m.chains.find? (fun c => c.chainId == destinationChainId) with
    | none =>
        { isRelayed := false, status := .failed, txHash := none,
          error := some "Chain config not found" }
    | some chainConfig =>
        let relayedLogs := (env destinationChainId).logsAt chainConfig.messengerAddress
        match relayedLogs.find? (relayedLogPred messageHash) with
        | some relayedMessage =>
            { isRelayed := true, status := .relayed,
              txHash := some relayedMessage.transactionHash, error := none }
        | none =>
            match relayedLogs.find? (failedLogPred messageHash) with
            | some failedMessage =>
                { isRelayed := true, status := .failed,
                  txHash := some failedMessage.transactionHash,
                  error := some "Message relay failed on destination chain" }
            | none =>
                { isRelayed := false, status := .failed, txHash := none, error := none }

/-- Model of `monitorMessage`: fetch the receipt, locate the first SentMessage
event, decode it, build the identifier, compute the hash, and probe the
destination chain when a client for it is configured.  `now` stands for
`Date.now()`. -/
def monitorMessage (m : Monitor) (env : Env) (now sourceChainId txHash : Nat) :
    Except MonitorError MessageStatus :=
  if !(hasClient m sourceChainId) then .error (.noClient sourceChainId)
  else
    match (env sourceChainId).receipts txHash with
    | none => .error (.receiptNotFound txHash)
    | some receipt =>
        match receipt.logs.filter sentLogPred with
        | [] => .error .noSentMessage
        | log :: _ =>
            let sentMessage := decodeSentMessage log
            let identifier := createMessageIdentifier env sourceChainId log receipt.blockNumber
            let messageHash := calculateMessageHash identifier sentMessage
            let status : MessageStatus :=
              { messageHash := messageHash, identifier := identifier, status := .sent,
                txHash := txHash, relayTxHash := none, error := none, timestamp := now }
            if hasClient m sentMessage.destination then
              let relayStatus := checkRelayStatus m env sentMessage.destination messageHash
              if relayStatus.isRelayed then
                .ok { status with status := relayStatus.status,
                                  relayTxHash := relayStatus.txHash,
                                  error := relayStatus.error }
              else .ok status
            else .ok status

/-- Model of `getMessagesStatus`: each pair resolved independently through
`monitorMessage`; an erroring entry becomes `null` and is filtered out. -/
def getMessagesStatus (m : Monitor) (env : Env) (now : Nat)
    (messages : List (Nat × Nat)) : List MessageStatus :=
  ((messages.map (fun p => monitorMessage m env now p.1 p.2)).map (fun e => e.toOption)).reduceOption

/-- The monitor's run-time mutable state: the `isMonitoring` flag and the
per-chain `setInterval` handles (a handle is identified here by the chain
it polls). -/
structure MonitorRunState where
  isMonitoring : Bool
  monitoringIntervals : List Nat
deriving DecidableEq

/-- Model of `startMonitoring`: a no-op while already monitoring; otherwise sets
the flag and registers one polling interval per configured chain. -/
def startMonitoring (m : Monitor) (s : MonitorRunState) : MonitorRunState :=
  if s.isMonitoring then s
  else
    { isMonitoring := true
      monitoringIntervals := s.monitoringIntervals ++ m.chains.map (fun c => c.chainId) }

/-- Model of `stopMonitoring`: clears the flag and all interval handles. -/
def stopMonitoring (_ : Monitor) (_ : MonitorRunState) : MonitorRunState :=
  { isMonitoring := false, monitoringIntervals := [] }

/-- Errors surfaced by `waitForRelay`: the timeout, or a `monitorMessage`
error propagating out of the loop body. -/
inductive WaitError where
  | timeout
  | monitorFailure (e : MonitorError)
deriving DecidableEq

/-- The `waitForRelay` polling loop.  Real time is abstracted into `fuel`,
the number of loop iterations the `timeoutMs` budget admits (each
iteration costs at least the fixed 2000 ms sleep, so the budget always
admits only finitely many); `poll i` is the outcome of the i-th
`monitorMessage` call against the chain state at that moment. -/
def waitForRelayGo (poll : Nat → Except MonitorError MessageStatus) :
    Nat → Nat → Except WaitError MessageStatus
  | _, 0 => .error .timeout
  | i, fuel + 1 =>
      match poll i with
      | .error e => .error (.monitorFailure e)
      | .ok status =>
          if status.status = .relayed ∨ status.status = .failed then .ok status
          else waitForRelayGo poll (i + 1) fuel

/-- Model of `waitForRelay`: poll `monitorMessage` until the message resolves or
the time budget runs out, the budget admitting `fuel` iterations.
`envAt i` is the chain state observed by the i-th poll. -/
def waitForRelay (m : Monitor) (envAt : Nat → Env) (now sourceChainId txHash fuel : Nat) :
    Except WaitError MessageStatus :=
  waitForRelayGo (fun i => monitorMessage m (envAt i) now sourceChainId txHash) 0 fuel

/-! ## `DexRouters.ts` -/

/-- One `DEX_ROUTERS` entry. -/
structure RouterConfig where
  router : Nat
  name : String
  type : String
deriving DecidableEq

/-- The `DEX_ROUTERS` table, keyed by chain id. -/
def DEX_ROUTERS : List (Nat × RouterConfig) :=
  [(10, { router := 0xa062aE8A9c5e11aaA026fc2670B0D65cCc8B2858,
          name := "Velodrome Router", type := "velodrome" }),
   (8453, { router := 0xcF77a3Ba9A5CA399B7c97c74d54e5b1Beb874E43,
            name := "Aerodrome Router", type := "aerodrome" }),
   (1301, { router := 0x2626664c2603336E57B271c5C0b26F421741e481,
            name := "Uniswap V4 Router", type := "uniswap-v4" }),
   (901, { router := 0x1111111111111111111111111111111111111111,
           name := "Supersim Mock DEX A", type := "uniswap-v3" }),
   (902, { router := 0x2222222222222222222222222222222222222222,
           name := "Supersim Mock DEX B", type := "uniswap-v3" })]

/-- Model of `getRouterConfig`. -/
def getRouterConfig (chainId : Nat) : Option RouterConfig :=
  (DEX_ROUTERS.find? (fun e => e.1 == chainId)).map (fun e => e.2)

/-- The `SUPERCHAIN_TOKENS` table: symbol to per-chain address. -/
def SUPERCHAIN_TOKENS : List (String × List (Nat × Nat)) :=
  [("USDC", [(10, 0x0b2C639c533813f4Aa9D7837CAf62653d097Ff85),
             (8453, 0x833589fCD6eDb6E08f4c7C32D4f71b54bdA02913),
             (1301, 0xA0b86a33E6E8b0b1Ca0c6dFf0a7A6a8e7F0b4b1c)]),
   ("WETH", [(10, 0x4200000000000000000000000000000000000006),
             (8453, 0x4200000000000000000000000000000000000006),
             (1301, 0x4200000000000000000000000000000000000006)])]

/-- Model of `getTokenAddress`. -/
def getTokenAddress (symbol : String) (chainId : Nat) : Option Nat :=
  match SUPERCHAIN_TOKENS.find? (fun e => e.1 == symbol) with
  | none => none
  | some (_, table) => (table.find? (fun e => e.1 == chainId)).map (fun e => e.2)

/-! ## `SuperchainSwapService.ts` -/

/-- A token argument: either an address literal (a string starting with
`0x`) or a symbol to look up. -/
inductive TokenRef where
  | addr (a : Nat)
  | symbol (s : String)
deriving DecidableEq

/-- Model of `SwapBridgeSwapParams`. -/
structure SwapBridgeSwapParams where
  sourceChain : Nat
  sourceTokenIn : TokenRef
  sourceTokenOut : TokenRef
  sourceAmountIn : Nat
  sourceMinAmountOut : Nat
  destinationChain : Nat
  destTokenIn : TokenRef
  destTokenOut : TokenRef
  destMinAmountOut : Nat
  recipient : Nat
  slippageTolerance : Nat
  deadline : Option Nat

/-- Model of `SwapBridgeSwapResult.operations` entry kinds. -/
inductive OpType where
  | swap
  | bridge
  | crossChainSwap
deriving DecidableEq, BEq

/-- Model of `SwapBridgeSwapResult.operations` entry statuses. -/
inductive OpStatus where
  | pending
  | completed
  | failed
deriving DecidableEq, BEq

/-- One `SwapBridgeSwapResult.operations` entry. -/
structure Operation where
  type : OpType
  chainId : Nat
  txHash : Option Nat
  messageHash : Option Nat
  status : OpStatus
deriving DecidableEq

/-- Model of `SwapBridgeSwapResult`. -/
structure SwapBridgeSwapResult where
  sourceSwapTx : Nat
  bridgeTx : Nat
  destSwapMessageHash : Nat
  estimatedTime : Nat
  operations : List Operation
deriving DecidableEq

/-- Errors thrown inside the swap service or by the execution provider. -/
inductive SwapError where
  /-- Model of `No DEX router configured for chain …`. -/
  | noRouter (chainId : Nat)
  /-- Model of `No router config for chain …` (thrown inside `encodeSwapData`). -/
  | noRouterConfig (chainId : Nat)
  /-- Model of `Unsupported DEX type: …`. -/
  | unsupportedDexType (t : String)
  /-- Model of `Token … not found for chain …`. -/
  | tokenNotFound (s : String) (chainId : Nat)
  /-- A submission failure raised by the execution provider. -/
  | execError (msg : String)
deriving DecidableEq

/-- Model of `resolveTokenAddress`: an address literal passes through, a symbol is
upper-cased and looked up. -/
def resolveTokenAddress (tokenOrSymbol : TokenRef) (chainId : Nat) : Except SwapError Nat :=
  match tokenOrSymbol with
  | .addr a => .ok a
  | .symbol s =>
      match getTokenAddress s.toUpper chainId with
      | some a => .ok a
      | none => .error (.tokenNotFound s chainId)

/-- Model of `encodeSwapData`: single-hop concentrated-liquidity calldata for the
Uniswap router types, multi-hop route calldata for the Solidly forks, and
a fail-fast error for anything else. -/
def encodeSwapData (chainId tokenIn tokenOut amountIn amountOutMin recipient deadline : Nat) :
    Except SwapError (List Nat) :=
  match getRouterConfig chainId with
  | none => .error (.noRouterConfig chainId)
  | some routerConfig =>
      if routerConfig.type = "uniswap-v4" ∨ routerConfig.type = "uniswap-v3" then
        .ok (encodeFunctionData
          "exactInputSingle((address,address,uint24,address,uint256,uint256,uint256,uint160))"
          [AbiValue.statTuple
            [tokenIn, tokenOut, 3000, recipient, deadline, amountIn, amountOutMin, 0]])
      else if routerConfig.type = "velodrome" ∨ routerConfig.type = "aerodrome" then
        .ok (encodeFunctionData
          "swapExactTokensForTokens(uint256,uint256,(address,address,bool,address)[],address,uint256)"
          [AbiValue.word amountIn, AbiValue.word amountOutMin,
           AbiValue.tupleArray
             [[tokenIn, tokenOut, 0, 0x25CbdDb98b35ab1FF77413456B31EC81A6B6B746]],
           AbiValue.word recipient, AbiValue.word deadline])
      else .error (.unsupportedDexType routerConfig.type)

/-- Model of `executeCrossChain` result of the execution provider: the source
transaction hash and the message hash extracted from the receipt (absent
when no SentMessage event was found). -/
structure CrossChainExecResult where
  txHash : Nat
  messageHash : Option Nat
deriving DecidableEq

/-- The execution provider (`ProductionPortoProvider`) as consumed by the
swap service: each submission either yields its handle or fails. -/
structure Provider where
  executeLocal : Nat → Nat → Nat → List Nat → Except SwapError Nat
  bridgeTokens : Nat → Nat → Nat → Nat → Except SwapError Nat
  executeCrossChain : Nat → Nat → Nat → List Nat → Except SwapError CrossChainExecResult

/-- The catch block's `operations.forEach`: pending entries become
failed. -/
def markPendingFailed (ops : List Operation) : List Operation :=
  ops.map (fun op => if op.status == OpStatus.pending then { op with status := .failed } else op)

/-- What `executeSwapBridgeSwap` leaves behind: the value returned or
error thrown to the caller, the final contents of the local `operations`
array, and which provider submissions were reached. -/
structure ExecOutcome where
  result : Except SwapError SwapBridgeSwapResult
  ops : List Operation
  bridgeCalled : Bool
  crossChainCalled : Bool

/-- Model of `executeSwapBridgeSwap`: resolve token addresses, then swap on the
source chain, bridge, and submit the destination swap cross-chain, each
step gated on the previous one; a thrown error marks pending operations
failed and propagates (`nowSec` stands for `Date.now() / 1000`). -/
def executeSwapBridgeSwap (provider : Provider) (nowSec : Nat)
    (params : SwapBridgeSwapParams) : ExecOutcome :=
  let deadline := jsOr params.deadline (nowSec + 1800)
  match resolveTokenAddress params.sourceTokenIn params.sourceChain with
  | .error e => { result := .error e, ops := [], bridgeCalled := false, crossChainCalled := false }
  | .ok sourceTokenInAddr =>
  match resolveTokenAddress params.sourceTokenOut params.sourceChain with
  | .error e => { result := .error e, ops := [], bridgeCalled := false, crossChainCalled := false }
  | .ok sourceTokenOutAddr =>
  match resolveTokenAddress params.destTokenIn params.destinationChain with
  | .error e => { result := .error e, ops := [], bridgeCalled := false, crossChainCalled := false }
  | .ok destTokenInAddr =>
  match resolveTokenAddress params.destTokenOut params.destinationChain with
  | .error e => { result := .error e, ops := [], bridgeCalled := false, crossChainCalled := false }
  | .ok destTokenOutAddr =>
  match encodeSwapData params.sourceChain sourceTokenInAddr sourceTokenOutAddr
      params.sourceAmountIn params.sourceMinAmountOut params.recipient deadline with
  | .error e =>
      { result := .error e, ops := markPendingFailed [],
        bridgeCalled := false, crossChainCalled := false }
  | .ok sourceSwapData =>
  match getRouterConfig params.sourceChain with
  | none =>
      { result := .error (.noRouter params.sourceChain), ops := markPendingFailed [],
        bridgeCalled := false, crossChainCalled := false }
  | some sourceRouterConfig =>
  match provider.executeLocal params.sourceChain sourceRouterConfig.router 0 sourceSwapData with
  | .error e =>
      { result := .error e, ops := markPendingFailed [],
        bridgeCalled := false, crossChainCalled := false }
  | .ok sourceSwapTx =>
  let ops1 : List Operation :=
    [{ type := .swap, chainId := params.sourceChain, txHash := some sourceSwapTx,
       messageHash := none, status := .completed }]
  match provider.bridgeTokens params.sourceChain params.destinationChain
      sourceTokenOutAddr params.sourceMinAmountOut with
  | .error e =>
      { result := .error e, ops := markPendingFailed ops1,
        bridgeCalled := true, crossChainCalled := false }
  | .ok bridgeTx =>
  let ops2 := ops1 ++
    [{ type := .bridge, chainId := params.sourceChain, txHash := some bridgeTx,
       messageHash := none, status := .completed }]
  match encodeSwapData params.destinationChain destTokenInAddr destTokenOutAddr
      params.sourceMinAmountOut params.destMinAmountOut params.recipient deadline with
  | .error e =>
      { result := .error e, ops := markPendingFailed ops2,
        bridgeCalled := true, crossChainCalled := false }
  | .ok destSwapData =>
  match getRouterConfig params.destinationChain with
  | none =>
      { result := .error (.noRouter params.destinationChain), ops := markPendingFailed ops2,
        bridgeCalled := true, crossChainCalled := false }
  | some destRouterConfig =>
  match provider.executeCrossChain params.sourceChain params.destinationChain
      destRouterConfig.router destSwapData with
  | .error e =>
      { result := .error e, ops := markPendingFailed ops2,
        bridgeCalled := true, crossChainCalled := true }
  | .ok destSwapResult =>
  let ops3 := ops2 ++
    [{ type := .crossChainSwap, chainId := params.destinationChain,
       txHash := some destSwapResult.txHash, messageHash := destSwapResult.messageHash,
       status := .pending }]
  { result := .ok
      { sourceSwapTx := sourceSwapTx, bridgeTx := bridgeTx,
        destSwapMessageHash := destSwapResult.messageHash.getD 0,
        estimatedTime := 180, operations := ops3 }
    ops := ops3, bridgeCalled := true, crossChainCalled := true }

/-- Model of `monitorSwapBridgeSwap`: delegates the pending cross-chain operation
to `monitorMessage` — passing the stored message hash where
`monitorMessage` expects a transaction hash — and swallows any monitoring
error, leaving the status list empty. -/
def monitorSwapBridgeSwap (m : Monitor) (env : Env) (now : Nat)
    (result : SwapBridgeSwapResult) : List MessageStatus :=
  let chainId :=
    ((result.operations.find? (fun op => op.type == OpType.crossChainSwap)).map
      (fun op => op.chainId)).getD 0
  match monitorMessage m env now chainId result.destSwapMessageHash with
  | .ok status => [status]
  | .error _ => []

/-- Whether every tracked status is relayed (`statuses.every`; vacuously
true of the empty list). -/
def allRelayed (statuses : List MessageStatus) : Bool :=
  statuses.all (fun st => st.status == MsgState.relayed)

/-- Whether some tracked status is failed (`statuses.some`). -/
def anyFailed (statuses : List MessageStatus) : Bool :=
  statuses.any (fun st => st.status == MsgState.failed)

/-- The `waitForCompletion` polling loop over abstract poll outcomes, with
real time abstracted into `fuel` iterations as for `waitForRelayGo`. -/
def waitForCompletionGo (poll : Nat → List MessageStatus) : Nat → Nat → Bool
  | _, 0 => false
  | i, fuel + 1 =>
      let statuses := poll i
      if allRelayed statuses then true
      else if anyFailed statuses then false
      else waitForCompletionGo poll (i + 1) fuel

/-- Model of `waitForCompletion`: poll `monitorSwapBridgeSwap` until every status
is relayed (true), some status is failed (false), or the time budget of
`fuel` iterations runs out (false). -/
def waitForCompletion (m : Monitor) (envAt : Nat → Env) (now : Nat)
    (result : SwapBridgeSwapResult) (fuel : Nat) : Bool :=
  waitForCompletionGo (fun i => monitorSwapBridgeSwap m (envAt i) now result) 0 fuel

/-! ## Specification-side definitions for refinement comparisons -/

/-- The message-hash construction exactly as the specification words it:
an inner keccak256 over the ABI encoding of (the protocol event signature
constant, then the OutboundMessage fields destination, target, nonce,
sender, payload), then an outer keccak256 over the ABI encoding of (the
serialized MessageIdentifier tuple, the inner hash). -/
def specComputeMessageHash (identifier : MessageIdentifier) (message : SentMessage) :
    List Nat :=
  let inner := keccak256Bytes (encodeAbiParameters
    [AbiValue.word SENT_MESSAGE_SIGNATURE,
     AbiValue.word message.destination,
     AbiValue.word message.target,
     AbiValue.word message.nonce,
     AbiValue.word message.sender,
     AbiValue.dynBytes message.message])
  keccak256Bytes (encodeAbiParameters
    [AbiValue.statTuple
      [identifier.origin, identifier.blockNumber, identifier.logIndex,
       identifier.timestamp, identifier.chainId],
     AbiValue.word (bytesToNatBE inner)])

/-- The status record a freshly observed, unresolved message gets. -/
def sentStatusOf (env : Env) (src tx now : Nat) (receipt : Receipt) (log : LogEntry) :
    MessageStatus :=
  { messageHash := calculateMessageHash
      (createMessageIdentifier env src log receipt.blockNumber) (decodeSentMessage log)
    identifier := createMessageIdentifier env src log receipt.blockNumber
    status := .sent
    txHash := tx
    relayTxHash := none
    error := none
    timestamp := now }

/-- What the caller of `executeSwapBridgeSwap` can read off the
operations list: it is visible only through the success value, a thrown
error carries no operations. -/
def callerReceivedOps (o : ExecOutcome) : Option (List Operation) :=
  match o.result with
  | .ok r => some r.operations
  | .error _ => none

/-! ## General helper lemmas -/

theorem keccak256Bytes_length (msg : List Nat) : (keccak256Bytes msg).length = 32 := by
  simp [keccak256Bytes, squeezeBytes]

theorem length_filterMap_eq_sub_countP {α β : Type} (f : α → Option β) (l : List α) :
    (l.filterMap f).length = l.length - l.countP (fun a => (f a).isNone) := by
  induction l with
  | nil => simp
  | cons a l ih =>
      have hle : l.countP (fun a => (f a).isNone) ≤ l.length := List.countP_le_length _
      cases hfa : f a with
      | none =>
          simp [List.filterMap_cons, hfa, List.countP_cons, ih]
      | some b =>
          simp [List.filterMap_cons, hfa, List.countP_cons, ih]
          omega

/-! ## Concrete fixtures used by witnesses and counterexamples -/

/-- Chain 901's configuration (addresses as in the Supersim deployment). -/
def cfg901 : ChainConfig :=
  { chainId := 901
    messengerAddress := 0x4200000000000000000000000000000000000023
    inboxAddress := 0x4200000000000000000000000000000000000022 }

/-- Chain 902's configuration. -/
def cfg902 : ChainConfig :=
  { chainId := 902
    messengerAddress := 0x4200000000000000000000000000000000000023
    inboxAddress := 0x4200000000000000000000000000000000000022 }

/-- A monitor over chains 901 and 902 with default settings. -/
def monitorW : Monitor :=
  mkMonitor { chains := [cfg901, cfg902], pollingInterval := none, messageExpiry := none }

/-- A monitor over chains 901 and 902 with a one-second message expiry. -/
def monitorExpiry : Monitor :=
  mkMonitor { chains := [cfg901, cfg902], pollingInterval := none, messageExpiry := some 1 }

/-- A SentMessage log whose decoded destination is chain 902. -/
def sentLogW : LogEntry :=
  { address := 0x4200000000000000000000000000000000000023
    topics := [SENT_MESSAGE_SIGNATURE, 902, 0xdead, 1]
    data := abiWord 0xabc ++ abiWord 64 ++ abiWord 4 ++ [222, 173, 190, 239]
    logIndex := some 0
    transactionHash := 0xAA }

/-- A SentMessage log whose decoded destination is the unconfigured
chain 999. -/
def sentLog999 : LogEntry :=
  { address := 0x4200000000000000000000000000000000000023
    topics := [SENT_MESSAGE_SIGNATURE, 999, 0xdead, 1]
    data := abiWord 0xabc ++ abiWord 64 ++ abiWord 4 ++ [222, 173, 190, 239]
    logIndex := some 0
    transactionHash := 0xAB }

/-- The receipt of transaction `0xAA` on chain 901. -/
def receiptW : Receipt := { logs := [sentLogW], blockNumber := 7 }

/-- The receipt of transaction `0xAB` on chain 901. -/
def receipt999 : Receipt := { logs := [sentLog999], blockNumber := 7 }

/-- A chain with no data at all. -/
def chainDataEmpty : ChainData :=
  { receipts := fun _ => none, blockTimestamp := fun _ => 0, logsAt := fun _ => [] }

/-- Chain 901 holding the two receipts above. -/
def chainData901 : ChainData :=
  { receipts := fun tx =>
      if tx == 0xAA then some receiptW else if tx == 0xAB then some receipt999 else none
    blockTimestamp := fun _ => 1111
    logsAt := fun _ => [] }

/-- An environment in which chain 901 has the receipts and chain 902 has
no relay events. -/
def envW : Env := fun cid => if cid == 901 then chainData901 else chainDataEmpty

/-- The message hash of the `sentLogW` message as observed in `envW`. -/
def msgHashW : Nat :=
  calculateMessageHash (createMessageIdentifier envW 901 sentLogW 7) (decodeSentMessage sentLogW)

/-- A RelayedMessage log on chain 902 carrying `msgHashW`. -/
def relayLogW : LogEntry :=
  { address := 0x4200000000000000000000000000000000000023
    topics := [RELAYED_MESSAGE_SIGNATURE, msgHashW]
    data := []
    logIndex := some 0
    transactionHash := 0xCC }

/-- Like `envW` but with the relay event present on chain 902. -/
def envRelayed : Env := fun cid =>
  if cid == 901 then chainData901
  else if cid == 902 then
    { receipts := fun _ => none
      blockTimestamp := fun _ => 0
      logsAt := fun a =>
        if a == 0x4200000000000000000000000000000000000023 then [relayLogW] else [] }
  else chainDataEmpty

/-- The status `monitorMessage` reports for `0xAA` in `envW`. -/
def stW : MessageStatus := sentStatusOf envW 901 0xAA 0 receiptW sentLogW

/-- An environment whose only receipt has no SentMessage log. -/
def envNoSent : Env := fun cid =>
  if cid == 901 then
    { receipts := fun tx => if tx == 1 then some { logs := [], blockNumber := 5 } else none
      blockTimestamp := fun _ => 0
      logsAt := fun _ => [] }
  else chainDataEmpty

/-! ## Claim C1 -/

set_option maxRecDepth 1000000 in
/-- Claim C1: for every (identifier, message) pair, `calculateMessageHash`
is a pure deterministic two-stage construction — an inner keccak256 over
the ABI encoding of (the SentMessage event signature constant, destination
chain id, target, nonce, sender, payload) followed by an outer keccak256
over the ABI encoding of (the identifier tuple, inner hash) — the event
signature constant itself is the keccak256 of the event declaration, the
result is always 32 bytes, and identical inputs yield identical hashes. -/
theorem calculateMessageHash_two_stage_deterministic
    (identifier : MessageIdentifier) (sentMessage : SentMessage) :
    calculateMessageHashBytes identifier sentMessage = specComputeMessageHash identifier sentMessage
    ∧ (calculateMessageHashBytes identifier sentMessage).length = 32
    ∧ SENT_MESSAGE_SIGNATURE =
        keccak256 (asciiBytes "SentMessage(uint256,address,uint256,address,bytes)")
    ∧ ∀ (identifier2 : MessageIdentifier) (sentMessage2 : SentMessage),
        identifier = identifier2 → sentMessage = sentMessage2 →
        calculateMessageHash identifier sentMessage = calculateMessageHash identifier2 sentMessage2 := by
  refine ⟨rfl, keccak256Bytes_length _, by decide, ?_⟩
  rintro identifier2 sentMessage2 rfl rfl
  rfl

/-- Witness for C1 at a concrete identifier and message. -/
theorem calculateMessageHash_two_stage_deterministic_witness :
    calculateMessageHashBytes (createMessageIdentifier envW 901 sentLogW 7) (decodeSentMessage sentLogW)
      = specComputeMessageHash (createMessageIdentifier envW 901 sentLogW 7) (decodeSentMessage sentLogW)
    ∧ (calculateMessageHashBytes (createMessageIdentifier envW 901 sentLogW 7) (decodeSentMessage sentLogW)).length = 32
    ∧ SENT_MESSAGE_SIGNATURE =
        keccak256 (asciiBytes "SentMessage(uint256,address,uint256,address,bytes)")
    ∧ calculateMessageHash (createMessageIdentifier envW 901 sentLogW 7) (decodeSentMessage sentLogW)
      = calculateMessageHash (createMessageIdentifier envW 901 sentLogW 7) (decodeSentMessage sentLogW) :=
  let t := calculateMessageHash_two_stage_deterministic
    (createMessageIdentifier envW 901 sentLogW 7) (decodeSentMessage sentLogW)
  ⟨t.1, t.2.1, t.2.2.1, t.2.2.2 _ _ rfl rfl⟩

/-! ## Claim C5 -/

/-- Claim C5: for every transaction whose receipt contains no log carrying
the SentMessage signature as its first topic, `monitorMessage` fails with
the not-found error (`No SentMessage events found in transaction`) and
returns no `MessageStatus`. -/
theorem monitorMessage_noSentMessage
    (m : Monitor) (env : Env) (now src tx : Nat) (receipt : Receipt)
    (hclient : hasClient m src = true)
    (hreceipt : (env src).receipts tx = some receipt)
    (hnone : receipt.logs.filter sentLogPred = []) :
    monitorMessage m env now src tx = .error .noSentMessage := by
  simp [monitorMessage, hclient, hreceipt, hnone]

/-- Witness for C5: a receipt whose only logs carry other signatures. -/
theorem monitorMessage_noSentMessage_witness :
    hasClient monitorW 901 = true
    ∧ (envNoSent 901).receipts 1 = some { logs := [], blockNumber := 5 }
    ∧ ({ logs := [], blockNumber := 5 } : Receipt).logs.filter sentLogPred = []
    ∧ monitorMessage monitorW envNoSent 0 901 1 = .error .noSentMessage :=
  ⟨by decide, rfl, rfl,
    monitorMessage_noSentMessage monitorW envNoSent 0 901 1 _ (by decide) rfl rfl⟩

/-! ## Claim C10 -/

/-- Claim C10: for every transaction containing a sent-message event whose
decoded destination chain id has no configured client, `monitorMessage`
succeeds with state `sent` and `relayTxHash` and `error` unset — the
destination probe is silently skipped. -/
theorem monitorMessage_missing_destination_client
    (m : Monitor) (env : Env) (now src tx : Nat) (receipt : Receipt)
    (log : LogEntry) (rest : List LogEntry)
    (hclient : hasClient m src = true)
    (hreceipt : (env src).receipts tx = some receipt)
    (hfilter : receipt.logs.filter sentLogPred = log :: rest)
    (hdest : hasClient m (decodeSentMessage log).destination = false) :
    monitorMessage m env now src tx = .ok (sentStatusOf env src tx now receipt log) := by
  simp [monitorMessage, hclient, hreceipt, hfilter, hdest, sentStatusOf]

/-- Witness for C10: the decoded destination 999 has no client. -/
theorem monitorMessage_missing_destination_client_witness :
    hasClient monitorW 901 = true
    ∧ (envW 901).receipts 0xAB = some receipt999
    ∧ receipt999.logs.filter sentLogPred = [sentLog999]
    ∧ hasClient monitorW (decodeSentMessage sentLog999).destination = false
    ∧ monitorMessage monitorW envW 0 901 0xAB = .ok (sentStatusOf envW 901 0xAB 0 receipt999 sentLog999) :=
  ⟨by decide, rfl, rfl, by decide,
    monitorMessage_missing_destination_client monitorW envW 0 901 0xAB receipt999 sentLog999 []
      (by decide) rfl rfl (by decide)⟩

/-! ## Claim C8 -/

/-- Helper: `checkRelayStatus` only ever reports relayed or failed. -/
theorem checkRelayStatus_status_ne_expired (m : Monitor) (env : Env) (d h : Nat) :
    (checkRelayStatus m env d h).status ≠ MsgState.expired := by
  simp only [checkRelayStatus]
  split
  · simp
  · split
    · simp
    · split
      · simp
      · split <;> simp

/-- Claim C8 (amended): the monitor never assigns the `expired` state —
whatever the observed-at time, the configured expiry duration, and the
destination logs, a successful `monitorMessage` reports `sent`, `relayed`
or `failed`, never `expired`. -/
theorem monitorMessage_status_not_expired (m : Monitor) (env : Env) (now src tx : Nat) :
    (monitorMessage m env now src tx).toOption.map (fun st => st.status) ≠ some MsgState.expired := by
  have key : ∀ st, monitorMessage m env now src tx = Except.ok st →
      st.status ≠ MsgState.expired := by
    intro st hok
    simp only [monitorMessage] at hok
    split at hok
    · exact Except.noConfusion hok
    · split at hok
      · exact Except.noConfusion hok
      · split at hok
        · exact Except.noConfusion hok
        · split at hok
          · split at hok
            · obtain rfl := Except.ok.inj hok
              exact checkRelayStatus_status_ne_expired m env _ _
            · obtain rfl := Except.ok.inj hok
              simp
          · obtain rfl := Except.ok.inj hok
            simp
  cases hres : monitorMessage m env now src tx with
  | error e => simp [hres, Except.toOption]
  | ok st =>
      simp only [hres, Except.toOption]
      simpa using key st hres

/-- Counterexample for C8: chain 901's message is ancient (block
timestamp 1111, observed at time 10^12) and the monitor's expiry is one
second, no relay or failure event exists on the configured destination —
yet the reported state is `sent`, not `expired`. -/
theorem monitorMessage_not_expired_counterexample :
    monitorExpiry.messageExpiry = 1
    ∧ (envW 902).logsAt cfg902.messengerAddress = []
    ∧ ((monitorMessage monitorExpiry envW 1000000000000 901 0xAA).toOption.map
        (fun st => st.status)) = some MsgState.sent := by
  refine ⟨rfl, rfl, rfl⟩

/-! ## Claim C9 -/

/-- Claim C9: `startMonitoring` is idempotent — while monitoring is
already running, calling it again changes nothing: no timers are added
and the flag is unchanged. -/
theorem startMonitoring_idempotent (m : Monitor) (s : MonitorRunState)
    (h : s.isMonitoring = true) : startMonitoring m s = s := by
  simp [startMonitoring, h]

/-- Witness for C9 on a running monitor with two registered timers. -/
theorem startMonitoring_idempotent_witness :
    ({ isMonitoring := true, monitoringIntervals := [901, 902] } : MonitorRunState).isMonitoring = true
    ∧ startMonitoring monitorW { isMonitoring := true, monitoringIntervals := [901, 902] }
      = { isMonitoring := true, monitoringIntervals := [901, 902] } :=
  ⟨rfl, startMonitoring_idempotent monitorW _ rfl⟩

/-! ## Claim C3 -/

/-- Claim C3: `getMessagesStatus` never throws (it is a total function
into a plain list) and returns exactly the statuses of the pairs for
which `monitorMessage` succeeds, dropping erroring entries; in
particular, when exactly one of the N inputs fails, N - 1 results come
back. -/
theorem getMessagesStatus_partial_success (m : Monitor) (env : Env) (now : Nat)
    (messages : List (Nat × Nat)) :
    getMessagesStatus m env now messages
      = messages.filterMap (fun p => (monitorMessage m env now p.1 p.2).toOption)
    ∧ (getMessagesStatus m env now messages).length
      = messages.length
        - messages.countP (fun p => (monitorMessage m env now p.1 p.2).toOption.isNone)
    ∧ (messages.countP (fun p => (monitorMessage m env now p.1 p.2).toOption.isNone) = 1 →
        (getMessagesStatus m env now messages).length = messages.length - 1) := by
  have h1 : getMessagesStatus m env now messages
      = messages.filterMap (fun p => (monitorMessage m env now p.1 p.2).toOption) := by
    simp only [getMessagesStatus, List.reduceOption, List.filterMap_map]
    rfl
  have h2 : (getMessagesStatus m env now messages).length
      = messages.length
        - messages.countP (fun p => (monitorMessage m env now p.1 p.2).toOption.isNone) := by
    rw [h1, length_filterMap_eq_sub_countP]
  exact ⟨h1, h2, fun hone => by rw [h2, hone]⟩

/-- Witness for C3: two inputs of which the second has no receipt — one
result comes back. -/
theorem getMessagesStatus_partial_success_witness :
    ([((901 : Nat), (0xAA : Nat)), (901, 0xBC)].countP
      (fun p => (monitorMessage monitorW envW 0 p.1 p.2).toOption.isNone)) = 1
    ∧ (getMessagesStatus monitorW envW 0 [((901 : Nat), (0xAA : Nat)), (901, 0xBC)]).length
      = [((901 : Nat), (0xAA : Nat)), (901, 0xBC)].length - 1 :=
  ⟨by decide,
    (getMessagesStatus_partial_success monitorW envW 0 [(901, 0xAA), (901, 0xBC)]).2.2
      (by decide)⟩

/-! ## Claim C4 -/

/-- Helper: a poll stream that never resolves drives `waitForRelayGo` to
the timeout error for every index and fuel. -/
theorem waitForRelayGo_timeout (poll : Nat → Except MonitorError MessageStatus)
    (h : ∀ i, ∃ st, poll i = .ok st ∧ st.status ≠ .relayed ∧ st.status ≠ .failed) :
    ∀ (i fuel : Nat), waitForRelayGo poll i fuel = .error .timeout := by
  intro i fuel
  induction fuel generalizing i with
  | zero => rfl
  | succ n ih =>
      obtain ⟨st, hok, h1, h2⟩ := h i
      simp [waitForRelayGo, hok, h1, h2, ih]

/-- Helper: the first resolving poll within the budget is returned. -/
theorem waitForRelayGo_resolves (poll : Nat → Except MonitorError MessageStatus) :
    ∀ (j i fuel : Nat) (st : MessageStatus),
      poll (i + j) = .ok st → (st.status = .relayed ∨ st.status = .failed) →
      (∀ k, k < j → ∃ st2, poll (i + k) = .ok st2 ∧ st2.status ≠ .relayed ∧ st2.status ≠ .failed) →
      j < fuel → waitForRelayGo poll i fuel = .ok st := by
  intro j
  induction j with
  | zero =>
      intro i fuel st hok hterm _ hfuel
      obtain ⟨n, rfl⟩ := Nat.exists_eq_add_of_lt hfuel
      simp only [Nat.add_zero] at hok
      simp [waitForRelayGo, hok, hterm]
  | succ k ih =>
      intro i fuel st hok hterm hbefore hfuel
      obtain ⟨n, rfl⟩ := Nat.exists_eq_add_of_lt hfuel
      obtain ⟨st0, hok0, hn1, hn2⟩ := hbefore 0 (Nat.succ_pos k)
      simp only [Nat.add_zero] at hok0
      have hshift : poll (i + 1 + k) = .ok st := by
        have : i + 1 + k = i + (k + 1) := by omega
        rw [this]; exact hok
      have hbefore2 : ∀ k2, k2 < k →
          ∃ st2, poll (i + 1 + k2) = .ok st2 ∧ st2.status ≠ .relayed ∧ st2.status ≠ .failed := by
        intro k2 hk2
        have : i + 1 + k2 = i + (k2 + 1) := by omega
        rw [this]
        exact hbefore (k2 + 1) (by omega)
      have := ih (i + 1) (k + n + 1) st hshift hterm hbefore2 (by omega)
      have hstep : waitForRelayGo poll i (k + 1 + n + 1)
          = waitForRelayGo poll (i + 1) (k + 1 + n) := by
        simp [waitForRelayGo, hok0, hn1, hn2]
      rw [hstep]
      have : k + 1 + n = k + n + 1 := by omega
      rw [this]
      exact ih (i + 1) (k + n + 1) st hshift hterm hbefore2 (by omega)

/-- Claim C4: `waitForRelay` never hangs — when no poll within the time
budget resolves the message, it raises the timeout error as soon as the
budget (here: the number `fuel` of loop iterations the budget admits)
elapses; and when the message reaches `relayed` or `failed` at some poll
within the budget, the corresponding `MessageStatus` is returned. -/
theorem waitForRelay_timeout_or_resolve (m : Monitor) (envAt : Nat → Env)
    (now src tx : Nat) :
    (∀ fuel,
      (∀ i, ∃ st, monitorMessage m (envAt i) now src tx = .ok st ∧
        st.status ≠ .relayed ∧ st.status ≠ .failed) →
      waitForRelay m envAt now src tx fuel = .error .timeout)
    ∧ (∀ j fuel (st : MessageStatus),
        monitorMessage m (envAt j) now src tx = .ok st →
        (st.status = .relayed ∨ st.status = .failed) →
        (∀ k, k < j → ∃ st2, monitorMessage m (envAt k) now src tx = .ok st2 ∧
          st2.status ≠ .relayed ∧ st2.status ≠ .failed) →
        j < fuel → waitForRelay m envAt now src tx fuel = .ok st) := by
  constructor
  · intro fuel h
    exact waitForRelayGo_timeout _ h 0 fuel
  · intro j fuel st hok hterm hbefore hfuel
    refine waitForRelayGo_resolves _ j 0 fuel st ?_ hterm ?_ hfuel
    · simpa using hok
    · intro k hk
      simpa using hbefore k hk

/-- Witness for C4: in a constant environment where the message stays
`sent` forever, three iterations of budget end in the timeout error. -/
theorem waitForRelay_timeout_witness :
    waitForRelay monitorW (fun _ => envW) 0 901 0xAA 3 = .error .timeout :=
  (waitForRelay_timeout_or_resolve monitorW (fun _ => envW) 0 901 0xAA).1 3
    (fun _ => ⟨stW, rfl, by decide, by decide⟩)

/-! ## Claim C2 -/

/-- Claim C2: for a transaction with a sent-message event whose
destination has a configured client, `monitorMessage` returns `sent` when
the destination messenger logs contain neither a RelayedMessage nor a
FailedRelayedMessage whose first indexed topic equals the computed
message hash; `relayed` with the matching log's transaction hash when a
RelayedMessage with that topic exists; and `failed` with an error when no
RelayedMessage matches but a FailedRelayedMessage does. -/
theorem monitorMessage_relay_states
    (m : Monitor) (env : Env) (now src tx : Nat) (receipt : Receipt)
    (log : LogEntry) (rest : List LogEntry) (cc : ChainConfig)
    (hclient : hasClient m src = true)
    (hreceipt : (env src).receipts tx = some receipt)
    (hfilter : receipt.logs.filter sentLogPred = log :: rest)
    (hdest : hasClient m (decodeSentMessage log).destination = true)
    (hcc : m.chains.find? (fun c => c.chainId == (decodeSentMessage log).destination) = some cc) :
    (((env (decodeSentMessage log).destination).logsAt cc.messengerAddress).find?
        (relayedLogPred (sentStatusOf env src tx now receipt log).messageHash) = none →
     ((env (decodeSentMessage log).destination).logsAt cc.messengerAddress).find?
        (failedLogPred (sentStatusOf env src tx now receipt log).messageHash) = none →
     monitorMessage m env now src tx = .ok (sentStatusOf env src tx now receipt log))
    ∧ (∀ l, ((env (decodeSentMessage log).destination).logsAt cc.messengerAddress).find?
        (relayedLogPred (sentStatusOf env src tx now receipt log).messageHash) = some l →
       monitorMessage m env now src tx
         = .ok { sentStatusOf env src tx now receipt log with
                 status := .relayed, relayTxHash := some l.transactionHash, error := none })
    ∧ (∀ l, ((env (decodeSentMessage log).destination).logsAt cc.messengerAddress).find?
        (relayedLogPred (sentStatusOf env src tx now receipt log).messageHash) = none →
       ((env (decodeSentMessage log).destination).logsAt cc.messengerAddress).find?
        (failedLogPred (sentStatusOf env src tx now receipt log).messageHash) = some l →
       monitorMessage m env now src tx
         = .ok { sentStatusOf env src tx now receipt log with
                 status := .failed, relayTxHash := some l.transactionHash,
                 error := some "Message relay failed on destination chain" }) := by
  refine ⟨fun hr hf => ?_, fun l hr => ?_, fun l hr hf => ?_⟩
  · simp only [sentStatusOf] at hr hf
    simp [monitorMessage, hclient, hreceipt, hfilter, hdest, checkRelayStatus, hcc, hr, hf,
      sentStatusOf]
  · simp only [sentStatusOf] at hr
    simp [monitorMessage, hclient, hreceipt, hfilter, hdest, checkRelayStatus, hcc, hr,
      sentStatusOf]
  · simp only [sentStatusOf] at hr hf
    simp [monitorMessage, hclient, hreceipt, hfilter, hdest, checkRelayStatus, hcc, hr, hf,
      sentStatusOf]

/-- Witness for C2, unresolved case: chain 902 is configured and its
messenger logs are empty, so the message stays `sent`. -/
theorem monitorMessage_relay_states_witness :
    hasClient monitorW 901 = true
    ∧ (envW 901).receipts 0xAA = some receiptW
    ∧ receiptW.logs.filter sentLogPred = [sentLogW]
    ∧ hasClient monitorW (decodeSentMessage sentLogW).destination = true
    ∧ monitorW.chains.find?
        (fun c => c.chainId == (decodeSentMessage sentLogW).destination) = some cfg902
    ∧ monitorMessage monitorW envW 0 901 0xAA = .ok (sentStatusOf envW 901 0xAA 0 receiptW sentLogW) :=
  ⟨by decide, rfl, rfl, by decide, by decide,
    (monitorMessage_relay_states monitorW envW 0 901 0xAA receiptW sentLogW [] cfg902
      (by decide) rfl rfl (by decide) (by decide)).1 rfl rfl⟩

/-! ## Claim C6 -/

/-- A provider whose every submission reverts. -/
def providerFail : Provider :=
  { executeLocal := fun _ _ _ _ => .error (.execError "execution reverted")
    bridgeTokens := fun _ _ _ _ => .error (.execError "execution reverted")
    executeCrossChain := fun _ _ _ _ => .error (.execError "execution reverted") }

/-- Swap parameters from chain 901 to 902 with address-literal tokens. -/
def paramsW : SwapBridgeSwapParams :=
  { sourceChain := 901
    sourceTokenIn := .addr 0x1000
    sourceTokenOut := .addr 0x2000
    sourceAmountIn := 1000
    sourceMinAmountOut := 990
    destinationChain := 902
    destTokenIn := .addr 0x2000
    destTokenOut := .addr 0x3000
    destMinAmountOut := 980
    recipient := 0x4000
    slippageTolerance := 1
    deadline := some 1234567 }

/-- The router configuration of chain 901. -/
def rc901 : RouterConfig :=
  { router := 0x1111111111111111111111111111111111111111
    name := "Supersim Mock DEX A"
    type := "uniswap-v3" }

/-- The source-swap calldata for `paramsW`. -/
def datW : List Nat :=
  (encodeSwapData 901 0x1000 0x2000 1000 990 0x4000 1234567).toOption.getD []

/-- Claim C6 (amended): if the source-swap submission errors,
`executeSwapBridgeSwap` halts before the bridge step — `bridgeTokens` is
never invoked — and the operations list holds zero completed operations
at that point; the error alone propagates to the caller (the operations
list is not attached to it). -/
theorem executeSwapBridgeSwap_halts_on_source_swap_failure
    (provider : Provider) (nowSec : Nat) (params : SwapBridgeSwapParams)
    (a1 a2 a3 a4 : Nat) (dat : List Nat) (rc : RouterConfig) (e : SwapError)
    (h1 : resolveTokenAddress params.sourceTokenIn params.sourceChain = .ok a1)
    (h2 : resolveTokenAddress params.sourceTokenOut params.sourceChain = .ok a2)
    (h3 : resolveTokenAddress params.destTokenIn params.destinationChain = .ok a3)
    (h4 : resolveTokenAddress params.destTokenOut params.destinationChain = .ok a4)
    (h5 : encodeSwapData params.sourceChain a1 a2 params.sourceAmountIn
            params.sourceMinAmountOut params.recipient
            (jsOr params.deadline (nowSec + 1800)) = .ok dat)
    (h6 : getRouterConfig params.sourceChain = some rc)
    (h7 : provider.executeLocal params.sourceChain rc.router 0 dat = .error e) :
    executeSwapBridgeSwap provider nowSec params
      = { result := .error e, ops := [], bridgeCalled := false, crossChainCalled := false } := by
  simp [executeSwapBridgeSwap, h1, h2, h3, h4, h5, h6, h7, markPendingFailed]

/-- Witness for C6: the provider reverts the source swap. -/
theorem executeSwapBridgeSwap_halts_on_source_swap_failure_witness :
    executeSwapBridgeSwap providerFail 0 paramsW
      = { result := .error (.execError "execution reverted"), ops := [],
          bridgeCalled := false, crossChainCalled := false } :=
  executeSwapBridgeSwap_halts_on_source_swap_failure providerFail 0 paramsW
    0x1000 0x2000 0x2000 0x3000 datW rc901 (.execError "execution reverted")
    rfl rfl rfl rfl rfl rfl rfl

/-- Counterexample for C6 as stated: at the failing input the bridge is
indeed never called and zero operations completed, but the caller
receives no operations list at all — only the bare error — so the partial
operations list is not returned alongside the error. -/
theorem executeSwapBridgeSwap_ops_not_returned_counterexample :
    (executeSwapBridgeSwap providerFail 0 paramsW).bridgeCalled = false
    ∧ (executeSwapBridgeSwap providerFail 0 paramsW).ops = []
    ∧ callerReceivedOps (executeSwapBridgeSwap providerFail 0 paramsW) = none :=
  ⟨rfl, rfl, rfl⟩

/-! ## Claim C7 -/

/-- Helper: one step of the `waitForCompletion` loop. -/
theorem waitForCompletionGo_succ (poll : Nat → List MessageStatus) (i n : Nat) :
    waitForCompletionGo poll i (n + 1)
      = if allRelayed (poll i) then true
        else if anyFailed (poll i) then false
        else waitForCompletionGo poll (i + 1) n := rfl

/-- Helper: the loop yields true exactly when some poll within the budget
sees every status relayed (vacuously so for an empty status list), all
earlier polls being inconclusive. -/
theorem waitForCompletionGo_iff (poll : Nat → List MessageStatus) :
    ∀ (fuel i : Nat),
      waitForCompletionGo poll i fuel = true ↔
        ∃ j, j < fuel ∧ allRelayed (poll (i + j)) = true ∧
          ∀ k, k < j → allRelayed (poll (i + k)) = false ∧ anyFailed (poll (i + k)) = false := by
  intro fuel
  induction fuel with
  | zero =>
      intro i
      simp [waitForCompletionGo]
  | succ n ih =>
      intro i
      rw [waitForCompletionGo_succ]
      cases hA : allRelayed (poll i) with
      | true =>
          simp only [hA, if_true]
          constructor
          · intro _
            exact ⟨0, Nat.succ_pos n, by simpa using hA, fun k hk => absurd hk (Nat.not_lt_zero k)⟩
          · intro _
            trivial
      | false =>
          cases hF : anyFailed (poll i) with
          | true =>
              simp only [hA, hF, Bool.false_eq_true, if_false, if_true]
              constructor
              · intro h
                exact h.elim
              · rintro ⟨j, _, hrel, hbef⟩
                cases j with
                | zero => simp [hA] at hrel
                | succ j2 =>
                    have h0 := (hbef 0 (Nat.succ_pos j2)).2
                    simp [hF] at h0
          | false =>
              simp only [hA, hF, Bool.false_eq_true, if_false]
              rw [ih (i + 1)]
              constructor
              · rintro ⟨j, hj, hrel, hbef⟩
                refine ⟨j + 1, by omega, ?_, ?_⟩
                · have heq : i + (j + 1) = i + 1 + j := by omega
                  rw [heq]; exact hrel
                · intro k hk
                  cases k with
                  | zero => simpa using ⟨hA, hF⟩
                  | succ k2 =>
                      have h2 := hbef k2 (by omega)
                      have heq : i + (k2 + 1) = i + 1 + k2 := by omega
                      rw [heq]; exact h2
              · rintro ⟨j, hj, hrel, hbef⟩
                cases j with
                | zero => simp [hA] at hrel
                | succ j2 =>
                    refine ⟨j2, by omega, ?_, ?_⟩
                    · have heq : i + 1 + j2 = i + (j2 + 1) := by omega
                      rw [heq]; exact hrel
                    · intro k hk
                      have h2 := hbef (k + 1) (by omega)
                      have heq : i + 1 + k = i + (k + 1) := by omega
                      rw [heq]; exact h2

/-- Claim C7 (amended): `waitForCompletion` returns true exactly when
some poll within the time budget observes every status produced by
`monitorSwapBridgeSwap` relayed — vacuously including an empty status
list, which arises whenever monitoring the tracked message errors — with
all earlier polls inconclusive; in every other case (a failed status
observed first, or budget exhausted) it returns false, and it never
throws for ordinary failure or timeout since it is a total function into
`Bool`. -/
theorem waitForCompletion_characterization (m : Monitor) (envAt : Nat → Env)
    (now : Nat) (result : SwapBridgeSwapResult) (fuel : Nat) :
    waitForCompletion m envAt now result fuel = true ↔
      ∃ j, j < fuel ∧ allRelayed (monitorSwapBridgeSwap m (envAt j) now result) = true ∧
        ∀ k, k < j → allRelayed (monitorSwapBridgeSwap m (envAt k) now result) = false ∧
          anyFailed (monitorSwapBridgeSwap m (envAt k) now result) = false := by
  have h := waitForCompletionGo_iff
    (fun i => monitorSwapBridgeSwap m (envAt i) now result) fuel 0
  simpa [waitForCompletion] using h

/-- A workflow result whose pending cross-chain operation sits on
chain 902 under a message hash that is not a transaction hash there. -/
def resultW : SwapBridgeSwapResult :=
  { sourceSwapTx := 0xA1
    bridgeTx := 0xA2
    destSwapMessageHash := 0xBEEF
    estimatedTime := 180
    operations :=
      [{ type := .swap, chainId := 901, txHash := some 0xA1,
         messageHash := none, status := .completed },
       { type := .bridge, chainId := 901, txHash := some 0xA2,
         messageHash := none, status := .completed },
       { type := .crossChainSwap, chainId := 902, txHash := some 0xA3,
         messageHash := some 0xBEEF, status := .pending }] }

/-- Counterexample for C7 as stated: monitoring the tracked message
errors (its message hash is not a transaction hash), so every poll yields
an empty status list, no message is ever observed relayed — yet
`waitForCompletion` returns true on its first poll. -/
theorem waitForCompletion_vacuous_true_counterexample :
    monitorSwapBridgeSwap monitorW envW 0 resultW = []
    ∧ waitForCompletion monitorW (fun _ => envW) 0 resultW 5 = true :=
  ⟨rfl, rfl⟩

set_option maxRecDepth 1000000 in
/-- Self-check of the end-to-end relayed scenario: a message sent on
chain 901 in transaction `0xAA` whose hash appears as the indexed topic of
a RelayedMessage log on chain 902 is reported `relayed` with the relay
transaction hash of that log. -/
example :
    (monitorMessage monitorW envRelayed 0 901 0xAA).toOption.map
      (fun st => (st.status, st.relayTxHash))
      = some (MsgState.relayed, some 0xCC) := by
  rfl

end SuperPorto
